import Mathlib

/-!
Shallow embedding of `hyperlane_network_exporter.py` (ChorusOne/hyperlane-network-exporter)
and proofs about its lifecycle, polling, and metric-update behaviour.

The embedding follows the source file:
* `SupportedNetworks` and `SupportedNetworks.hyperlane_merkle_tree_hook_contract`
  embed the `str`-enum and its address lookup (source lines 51-67).
* `MetricStore` / `setGauge` embed the labeled prometheus gauge
  `hyperlane_contract_latest_checkpoint` (lines 72-76): one time series per
  `network` label, `set` is a last-write-wins overwrite.
* `HyperlaneContractExporter.init`, `.tick`, `.run`, `.stop` embed the methods of
  the exporter class (lines 127-190).  Async effects are made explicit: the
  awaited chain results (`chain_id`, `latestCheckpoint()`) are inputs of type
  `Except`, a raised Python exception is an `Except.error` result, and the
  fire-and-forget task concurrency of `run`/`stop` is modelled by a small-step
  scheduler (`Sys`/`stepSys`) further below.
-/

/-- Python exceptions that can cross the boundaries modelled here.
`transportError` / `contractRevert` are the failures of the outbound RPC call;
`cancelledError` is `asyncio.CancelledError` delivered at an `await`;
`runtimeUnsupportedNetwork c` is `RuntimeError("Unsupported network with chain id %s", c)`
raised in `init` (line 178); `runtimeNoContractAddress` is the
`RuntimeError("Can not derive hyperlane merkle tree hook address for network")`
of the address lookup (lines 65-67); `attributeError a` is an `AttributeError`
for a missing attribute named `a`. -/
inductive PyError
  | transportError
  | contractRevert
  | cancelledError
  | runtimeUnsupportedNetwork (chain_id : Nat)
  | runtimeNoContractAddress
  | attributeError (attr : String)
deriving DecidableEq, Repr

/-- The closed `str`-enum `SupportedNetworks` (source lines 51-53). -/
inductive SupportedNetworks
  | MAINNET
  | HOLESKY
deriving DecidableEq, Repr

/-- The `.value` of each enum member; `__str__` (lines 55-56) returns exactly this
string, so it is also the `network` label used on the gauge. -/
def SupportedNetworks.value : SupportedNetworks → String
  | .MAINNET => "mainnet"
  | .HOLESKY => "holesky"

/-- Embeds `SupportedNetworks.hyperlane_merkle_tree_hook_contract` (lines 58-67).
The Python body is a `match self.value` against the (str-valued) enum members,
with a trailing `raise RuntimeError(...)` if neither value pattern matches; the
string comparisons of the `match` are kept as an `if` chain on `.value`. -/
def SupportedNetworks.hyperlane_merkle_tree_hook_contract (n : SupportedNetworks) :
    Except PyError String :=
  if n.value = SupportedNetworks.HOLESKY.value then
    Except.ok "0x98AAE089CaD930C64a76dD2247a2aC5773a4B8cE"
  else if n.value = SupportedNetworks.MAINNET.value then
    Except.ok "0x48e6c30B97748d1e2e03bf3e9FbE3890ca5f8CCA"
  else
    Except.error PyError.runtimeNoContractAddress

/-- The labeled gauge `hyperlane_contract_latest_checkpoint` (lines 72-76):
an association of `network` label strings to the latest published value. -/
abbrev MetricStore := List (String × Nat)

/-- Embeds `gauge.labels(label).set(v)`: overwrite the series for `label`,
creating it on first write; other labels are untouched (last-write-wins). -/
def setGauge : MetricStore → String → Nat → MetricStore
  | [], label, v => [(label, v)]
  | (l, v0) :: rest, label, v =>
      if l = label then (label, v) :: rest else (l, v0) :: setGauge rest label v

/-- The mutable attributes of `HyperlaneContractExporter` that `init`/`tick`
read or write: `self.network` (absent until `init` assigns it, line 173/176),
the `functools.cached_property` cache of `self.contract` (lines 144-146, holding
the contract address once first computed), and the gauge store the ticks write. -/
structure ExporterState where
  network : Option SupportedNetworks
  contractCache : Option String
  store : MetricStore
deriving DecidableEq, Repr

/-- One observable `Metric Store` write: the label passed to `.labels(...)`,
the contract address the value was read from, and the value written. -/
structure WriteEv where
  label : String
  contractAddress : String
  value : Nat
deriving DecidableEq, Repr

/-- Embeds `HyperlaneContractExporter.init` (lines 168-178).  The awaited
`self.w3.eth.chain_id` is the `chainIdFetch` input (`Except.error` = the await
raised).  On chain id 1 / 17000 the method assigns `self.network`; otherwise it
raises `RuntimeError("Unsupported network with chain id %s", chain_id)` without
touching any state. -/
def HyperlaneContractExporter.init (s : ExporterState)
    (chainIdFetch : Except PyError Nat) : Except PyError Unit × ExporterState :=
  match chainIdFetch with
  | .error e => (.error e, s)
  | .ok chain_id =>
      if chain_id = 1 then
        (.ok (), { s with network := some SupportedNetworks.MAINNET })
      else if chain_id = 17000 then
        (.ok (), { s with network := some SupportedNetworks.HOLESKY })
      else
        (.error (.runtimeUnsupportedNetwork chain_id), s)

/-- The part of `tick` after `self.contract` has resolved to address `a` for
network `n`: `_, value = await ...latestCheckpoint().call()` followed by
`hyperlane_contract_latest_checkpoint.labels(self.network).set(value)`
(lines 181-183).  A failed or cancelled call raises before any write; a
successful call is followed (with no intervening `await`) by exactly one write. -/
def HyperlaneContractExporter.tickWithContract (s : ExporterState)
    (n : SupportedNetworks) (a : String) (callRes : Except PyError (Nat × Nat)) :
    Except PyError Unit × ExporterState × List WriteEv :=
  match callRes with
  | .error e => (.error e, s, [])
  | .ok rv =>
      (.ok (), { s with store := setGauge s.store n.value rv.2 },
       [⟨n.value, a, rv.2⟩])

/-- Embeds `HyperlaneContractExporter.tick` (lines 180-183).  Accessing
`self.contract` first resolves the cached property (lines 144-146): with no
`self.network` attribute this raises `AttributeError`; otherwise the contract
address is computed once via `hyperlane_merkle_tree_hook_contract` and cached
(the cache fills even if the subsequent call fails).  `callRes` is the outcome
of the awaited `latestCheckpoint().call()`. -/
def HyperlaneContractExporter.tick (s : ExporterState)
    (callRes : Except PyError (Nat × Nat)) :
    Except PyError Unit × ExporterState × List WriteEv :=
  match s.network with
  | none => (.error (.attributeError "network"), s, [])
  | some n =>
      match s.contractCache with
      | some a => HyperlaneContractExporter.tickWithContract s n a callRes
      | none =>
          match SupportedNetworks.hyperlane_merkle_tree_hook_contract n with
          | .error e => (.error e, s, [])
          | .ok a =>
              HyperlaneContractExporter.tickWithContract
                { s with contractCache := some a } n a callRes

/-- The address lookup never fails on a member of the closed enum; helper shared
by several proofs below. -/
theorem hyperlane_contract_ok (n : SupportedNetworks) :
    ∃ a : String, SupportedNetworks.hyperlane_merkle_tree_hook_contract n =
      Except.ok a := by
  cases n
  · exact ⟨"0x48e6c30B97748d1e2e03bf3e9FbE3890ca5f8CCA", rfl⟩
  · exact ⟨"0x98AAE089CaD930C64a76dD2247a2aC5773a4B8cE", rfl⟩

/-- Claim C9: for every member of the closed `SupportedNetworks` set,
`hyperlane_merkle_tree_hook_contract()` returns that network's fixed, non-empty
contract address string, and the defensive `RuntimeError` branch at the end of
the function is unreachable. -/
theorem contract_address_total :
    SupportedNetworks.hyperlane_merkle_tree_hook_contract SupportedNetworks.MAINNET
      = Except.ok "0x48e6c30B97748d1e2e03bf3e9FbE3890ca5f8CCA" ∧
    SupportedNetworks.hyperlane_merkle_tree_hook_contract SupportedNetworks.HOLESKY
      = Except.ok "0x98AAE089CaD930C64a76dD2247a2aC5773a4B8cE" ∧
    (∀ n : SupportedNetworks, ∃ a : String,
      SupportedNetworks.hyperlane_merkle_tree_hook_contract n = Except.ok a ∧
        a ≠ "") ∧
    (∀ (n : SupportedNetworks) (e : PyError),
      SupportedNetworks.hyperlane_merkle_tree_hook_contract n ≠ Except.error e) := by
  refine ⟨rfl, rfl, ?_, ?_⟩
  · intro n
    cases n
    · exact ⟨"0x48e6c30B97748d1e2e03bf3e9FbE3890ca5f8CCA", rfl, by decide⟩
    · exact ⟨"0x98AAE089CaD930C64a76dD2247a2aC5773a4B8cE", rfl, by decide⟩
  · intro n e h
    cases n <;> exact Except.noConfusion h

/-- Claim C2: `init()` resolves chain id 1 to MAINNET and 17000 to HOLESKY; any
other chain id makes it fail with the unsupported-network error propagated to
the caller, and the state (in particular `self.network`) is left untouched.  A
failing chain-id fetch likewise propagates without touching state. -/
theorem init_network_resolution (s : ExporterState) :
    HyperlaneContractExporter.init s (.ok 1)
      = (.ok (), { s with network := some SupportedNetworks.MAINNET }) ∧
    HyperlaneContractExporter.init s (.ok 17000)
      = (.ok (), { s with network := some SupportedNetworks.HOLESKY }) ∧
    (∀ c : Nat, c ≠ 1 → c ≠ 17000 →
      HyperlaneContractExporter.init s (.ok c)
        = (.error (.runtimeUnsupportedNetwork c), s)) ∧
    (∀ e : PyError, HyperlaneContractExporter.init s (.error e) = (.error e, s)) := by
  refine ⟨rfl, rfl, ?_, fun e => rfl⟩
  intro c h1 h2
  simp [HyperlaneContractExporter.init, h1, h2]

/-- Claim C2 witness: a concrete unsupported chain id (999) is rejected and the
state is unchanged. -/
theorem init_network_resolution_witness :
    (999 ≠ 1) ∧ (999 ≠ 17000) ∧
    HyperlaneContractExporter.init ⟨none, none, []⟩ (.ok 999)
      = (.error (.runtimeUnsupportedNetwork 999), ⟨none, none, []⟩) :=
  ⟨by decide, by decide,
    (init_network_resolution ⟨none, none, []⟩).2.2.1 999 (by decide) (by decide)⟩

/-- Claim C1: for a tick on an initialized exporter, a failed or cancelled
contract call leaves the whole Metric Store (every label) unchanged and performs
no write, while a successful call performs exactly one gauge write with the
fetched value under the resolved network's label. -/
theorem tick_write_atomicity (n : SupportedNetworks) (cache : Option String)
    (store : MetricStore) :
    (∀ e : PyError,
      (HyperlaneContractExporter.tick ⟨some n, cache, store⟩ (.error e)).2.1.store
        = store ∧
      (HyperlaneContractExporter.tick ⟨some n, cache, store⟩ (.error e)).2.2
        = []) ∧
    (∀ root v : Nat, ∃ a : String,
      (HyperlaneContractExporter.tick ⟨some n, cache, store⟩ (.ok (root, v))).2.1.store
        = setGauge store n.value v ∧
      (HyperlaneContractExporter.tick ⟨some n, cache, store⟩ (.ok (root, v))).2.2
        = [⟨n.value, a, v⟩]) := by
  cases cache with
  | some a => exact ⟨fun e => ⟨rfl, rfl⟩, fun root v => ⟨a, rfl, rfl⟩⟩
  | none =>
      cases n
      · exact ⟨fun e => ⟨rfl, rfl⟩,
          fun root v => ⟨"0x48e6c30B97748d1e2e03bf3e9FbE3890ca5f8CCA", rfl, rfl⟩⟩
      · exact ⟨fun e => ⟨rfl, rfl⟩,
          fun root v => ⟨"0x98AAE089CaD930C64a76dD2247a2aC5773a4B8cE", rfl, rfl⟩⟩

/-- Claim C6 counterexample: `tick()` has no handler at the tick boundary — on a
transport failure of the chain call its own result is that very error (the
exception is raised out of `tick()` to its caller), contradicting the claim
that tick itself never raises such an error. -/
theorem tick_error_propagates_cex :
    (HyperlaneContractExporter.tick ⟨some SupportedNetworks.MAINNET, none, []⟩
        (.error PyError.transportError)).1 = .error PyError.transportError ∧
    (HyperlaneContractExporter.tick ⟨some SupportedNetworks.MAINNET, none, []⟩
        (.error PyError.transportError)).1 ≠ .ok () := by
  refine ⟨rfl, ?_⟩
  intro h
  exact Except.noConfusion h

/-- Claim C6 (amended): a steady-state chain-call failure is not caught inside
`tick()`: it propagates out of `tick()` unchanged to its caller (the spawned
task, where the event loop reports it); the failing tick performs no Metric
Store write, which is what leaves the previous value published and — together
with the loop never awaiting tick tasks — keeps the loop on schedule. -/
theorem tick_error_isolation_amended (n : SupportedNetworks) (cache : Option String)
    (store : MetricStore) (e : PyError) :
    (HyperlaneContractExporter.tick ⟨some n, cache, store⟩ (.error e)).1
      = .error e ∧
    (HyperlaneContractExporter.tick ⟨some n, cache, store⟩ (.error e)).2.1.store
      = store ∧
    (HyperlaneContractExporter.tick ⟨some n, cache, store⟩ (.error e)).2.2 = [] := by
  cases cache with
  | some a => exact ⟨rfl, rfl, rfl⟩
  | none => cases n <;> exact ⟨rfl, rfl, rfl⟩

/-- Observable actions of one `run()` loop body (lines 185-190): spawning a tick
task via `loop.create_task(self.tick())` (the handle is discarded — nothing is
awaited), suspending in `await self.sleep()` for `interval_ms / 1000` seconds
(i.e. `interval_ms` milliseconds, lines 165-166), and `self.stopped.set()` after
the loop exits. -/
inductive RunEvent
  | spawnTick
  | sleepMs (interval_ms : Nat)
  | setStoppedEvt
deriving DecidableEq, Repr

/-- Embeds `HyperlaneContractExporter.run` (lines 185-190) as the trace of one
execution: `obs` is the successive values the `while not self.stopping` test
reads.  While it reads `false` the body spawns a tick then sleeps; on the first
`true` the loop exits and sets the `stopped` event.  An exhausted `obs` is a
still-running loop (partial trace). -/
def HyperlaneContractExporter.run (interval_ms : Nat) : List Bool → List RunEvent
  | [] => []
  | stopping :: rest =>
      if stopping then [RunEvent.setStoppedEvt]
      else RunEvent.spawnTick :: RunEvent.sleepMs interval_ms ::
        HyperlaneContractExporter.run interval_ms rest

/-- The trace of `n` loop iterations: each spawns a tick, then sleeps. -/
def loopIters (interval_ms : Nat) : Nat → List RunEvent
  | 0 => []
  | k + 1 => RunEvent.spawnTick :: RunEvent.sleepMs interval_ms ::
      loopIters interval_ms k

/-- Claim C3: while the stopping flag reads false, every iteration of `run()`
first spawns a tick task (fire-and-forget — the trace goes straight from the
spawn to the sleep, with no join in between) and then suspends for
`interval_ms` milliseconds; on the first iteration that observes the flag true,
the loop exits and sets the stopped completion signal. -/
theorem run_loop_trace (interval_ms n : Nat) (rest : List Bool) :
    HyperlaneContractExporter.run interval_ms
        (List.replicate n false ++ true :: rest)
      = loopIters interval_ms n ++ [RunEvent.setStoppedEvt] := by
  induction n with
  | zero => rfl
  | succ k ih =>
      simp [List.replicate_succ, HyperlaneContractExporter.run, loopIters, ih]

/-- Markers for the calls `start_exporter_app` makes, in program order
(lines 81-87): cache the shared session on the provider, `await init()`,
one synchronous `await tick()`, then `start()`. -/
inductive StartupEvent
  | cacheSession
  | initCalled
  | tickCalled
  | startCalled
deriving DecidableEq, Repr

/-- Embeds `start_exporter_app` (lines 81-87): the aiohttp on-startup hook.  It
caches the session, awaits `init()`, awaits one `tick()` ("Acquire data once to
verify its working"), and only then calls `start()`.  A raise from `init` or
`tick` propagates out of the hook (aiohttp treats that as a startup failure)
and the following calls never happen. -/
def start_exporter_app (s : ExporterState) (chainIdFetch : Except PyError Nat)
    (callRes : Except PyError (Nat × Nat)) :
    Except PyError Unit × ExporterState × List StartupEvent :=
  match HyperlaneContractExporter.init s chainIdFetch with
  | (.error e, s1) => (.error e, s1, [.cacheSession, .initCalled])
  | (.ok _, s1) =>
      match HyperlaneContractExporter.tick s1 callRes with
      | (.error e, s2, _) =>
          (.error e, s2, [.cacheSession, .initCalled, .tickCalled])
      | (.ok _, s2, _) =>
          (.ok (), s2, [.cacheSession, .initCalled, .tickCalled, .startCalled])

/-- A successful `init` always leaves a resolved network. -/
theorem init_ok_network (s s1 : ExporterState) (cf : Except PyError Nat)
    (h : HyperlaneContractExporter.init s cf = (.ok (), s1)) :
    s1.network = some SupportedNetworks.MAINNET ∨
      s1.network = some SupportedNetworks.HOLESKY := by
  cases cf with
  | error e => simp [HyperlaneContractExporter.init] at h
  | ok c =>
      by_cases h1 : c = 1
      · subst h1
        simp [HyperlaneContractExporter.init] at h
        subst h
        exact Or.inl rfl
      · by_cases h2 : c = 17000
        · subst h2
          simp [HyperlaneContractExporter.init, h1] at h
          subst h
          exact Or.inr rfl
        · simp [HyperlaneContractExporter.init, h1, h2] at h

/-- A tick on a state with a resolved network propagates a call failure
unchanged, and succeeds on a successful call. -/
theorem tick_result_of_resolved (s : ExporterState) (n : SupportedNetworks)
    (hn : s.network = some n) :
    (∀ e : PyError,
      (HyperlaneContractExporter.tick s (.error e)).1 = .error e) ∧
    (∀ rv : Nat × Nat, (HyperlaneContractExporter.tick s (.ok rv)).1 = .ok ()) := by
  obtain ⟨net, cache, store⟩ := s
  cases hn
  cases cache with
  | some a => exact ⟨fun e => rfl, fun rv => rfl⟩
  | none => cases n <;> exact ⟨fun e => rfl, fun rv => rfl⟩

/-- Claim C5: server startup runs `init()`, then exactly one synchronous
`tick()`, then `start()`, in that order; a failure of `init()` (fetch failure or
unsupported chain id) or of that first `tick()` propagates out of the startup
hook and `start()` is never invoked — the loop never runs. -/
theorem start_exporter_app_order (s : ExporterState) :
    (∀ (e : PyError) (cr : Except PyError (Nat × Nat)),
      start_exporter_app s (.error e) cr
        = (.error e, s, [.cacheSession, .initCalled])) ∧
    (∀ (c : Nat) (cr : Except PyError (Nat × Nat)), c ≠ 1 → c ≠ 17000 →
      start_exporter_app s (.ok c) cr
        = (.error (.runtimeUnsupportedNetwork c), s, [.cacheSession, .initCalled])) ∧
    (∀ (cf : Except PyError Nat) (s1 : ExporterState) (e : PyError),
      HyperlaneContractExporter.init s cf = (.ok (), s1) →
      (start_exporter_app s cf (.error e)).1 = .error e ∧
      (start_exporter_app s cf (.error e)).2.2
        = [.cacheSession, .initCalled, .tickCalled]) ∧
    (∀ (cf : Except PyError Nat) (s1 : ExporterState) (root v : Nat),
      HyperlaneContractExporter.init s cf = (.ok (), s1) →
      (start_exporter_app s cf (.ok (root, v))).1 = .ok () ∧
      (start_exporter_app s cf (.ok (root, v))).2.2
        = [.cacheSession, .initCalled, .tickCalled, .startCalled]) := by
  refine ⟨fun e cr => rfl, ?_, ?_, ?_⟩
  · intro c cr h1 h2
    simp [start_exporter_app, HyperlaneContractExporter.init, h1, h2]
  · intro cf s1 e hInit
    obtain ⟨n, hn⟩ : ∃ n, s1.network = some n := by
      rcases init_ok_network s s1 cf hInit with h | h
      · exact ⟨_, h⟩
      · exact ⟨_, h⟩
    have hterr := (tick_result_of_resolved s1 n hn).1 e
    rcases ht : HyperlaneContractExporter.tick s1 (.error e) with ⟨r, s2, ws⟩
    rw [ht] at hterr
    simp only at hterr
    subst hterr
    constructor <;> simp [start_exporter_app, hInit, ht]
  · intro cf s1 root v hInit
    obtain ⟨n, hn⟩ : ∃ n, s1.network = some n := by
      rcases init_ok_network s s1 cf hInit with h | h
      · exact ⟨_, h⟩
      · exact ⟨_, h⟩
    have htok := (tick_result_of_resolved s1 n hn).2 (root, v)
    rcases ht : HyperlaneContractExporter.tick s1 (.ok (root, v)) with ⟨r, s2, ws⟩
    rw [ht] at htok
    simp only at htok
    subst htok
    constructor <;> simp [start_exporter_app, hInit, ht]

/-- Claim C5 witness: from a fresh exporter against a mainnet endpoint, all
four outcome branches of the startup hook behave as stated at concrete inputs. -/
theorem start_exporter_app_order_witness :
    start_exporter_app ⟨none, none, []⟩ (.error .transportError) (.ok (0, 7))
      = (.error .transportError, ⟨none, none, []⟩, [.cacheSession, .initCalled]) ∧
    start_exporter_app ⟨none, none, []⟩ (.ok 999) (.ok (0, 7))
      = (.error (.runtimeUnsupportedNetwork 999), ⟨none, none, []⟩,
         [.cacheSession, .initCalled]) ∧
    ((start_exporter_app ⟨none, none, []⟩ (.ok 1) (.error .contractRevert)).1
        = .error .contractRevert ∧
      (start_exporter_app ⟨none, none, []⟩ (.ok 1) (.error .contractRevert)).2.2
        = [.cacheSession, .initCalled, .tickCalled]) ∧
    ((start_exporter_app ⟨none, none, []⟩ (.ok 1) (.ok (0, 7))).1 = .ok () ∧
      (start_exporter_app ⟨none, none, []⟩ (.ok 1) (.ok (0, 7))).2.2
        = [.cacheSession, .initCalled, .tickCalled, .startCalled]) :=
  ⟨(start_exporter_app_order ⟨none, none, []⟩).1 .transportError (.ok (0, 7)),
   (start_exporter_app_order ⟨none, none, []⟩).2.1 999 (.ok (0, 7))
     (by decide) (by decide),
   (start_exporter_app_order ⟨none, none, []⟩).2.2.1 (.ok 1)
     ⟨some SupportedNetworks.MAINNET, none, []⟩ .contractRevert rfl,
   (start_exporter_app_order ⟨none, none, []⟩).2.2.2 (.ok 1)
     ⟨some SupportedNetworks.MAINNET, none, []⟩ 0 7 rfl⟩

/-- The lifecycle attributes of `HyperlaneContractExporter` that `stop` touches:
`self.stopping` and the `self.stopped` event (set in `__init__`, lines 141-142),
whether `self._runner_task` exists (assigned only by `start()`, line 152), and
whether `self.session` is open (opened in `__init__`, line 139). -/
structure LifecycleState where
  stopping : Bool
  stoppedEvt : Bool
  hasRunnerTask : Bool
  sessionOpen : Bool
deriving DecidableEq, Repr

/-- How one activation of the `stop()` coroutine ends: it returns normally, it
suspends in `await self.stopped.wait()` (the event was not yet set), or it
raises `AttributeError` because `self._runner_task` was never assigned. -/
inductive StopOutcome
  | returned (s : LifecycleState)
  | blockedOnEvt (s : LifecycleState)
  | attrError (s : LifecycleState)
deriving DecidableEq, Repr

/-- Embeds `HyperlaneContractExporter.start` (lines 151-154): creates the loop
task and stores its handle in `self._runner_task`. -/
def HyperlaneContractExporter.start (s : LifecycleState) : LifecycleState :=
  { s with hasRunnerTask := true }

/-- Embeds `HyperlaneContractExporter.stop` (lines 156-163) up to its first
suspension: set `self.stopping = True`, then access `self._runner_task` (an
`AttributeError` if `start()` never ran) and cancel it (a no-op on a finished
task), then `if not self.stopped.is_set(): await self.stopped.wait()` — if the
event is already set the wait is skipped and the session is closed and `stop`
returns; otherwise the coroutine blocks on the event. -/
def HyperlaneContractExporter.stop (s : LifecycleState) : StopOutcome :=
  let s1 := { s with stopping := true }
  if s1.hasRunnerTask then
    if s1.stoppedEvt then StopOutcome.returned { s1 with sessionOpen := false }
    else StopOutcome.blockedOnEvt s1
  else StopOutcome.attrError s1

/-- Resumption of a `stop()` blocked in `await self.stopped.wait()`: the wait
completes only once the event is set, after which the session is closed and
`stop` returns. -/
def HyperlaneContractExporter.stopResume (s : LifecycleState) : StopOutcome :=
  if s.stoppedEvt then StopOutcome.returned { s with sessionOpen := false }
  else StopOutcome.blockedOnEvt s

/-- A first call of `stop()` on `s0` ran to completion with final state `s1`:
either it returned without blocking, or it blocked on the `stopped` event and
resumed after the loop task's done callback (`on_runner_task_done`,
lines 148-149) set the event. -/
def FirstStopCompleted (s0 s1 : LifecycleState) : Prop :=
  HyperlaneContractExporter.stop s0 = StopOutcome.returned s1 ∨
  (∃ sb : LifecycleState,
    HyperlaneContractExporter.stop s0 = StopOutcome.blockedOnEvt sb ∧
    HyperlaneContractExporter.stopResume { sb with stoppedEvt := true }
      = StopOutcome.returned s1)

/-- Claim C8: once a first `stop()` call has completed, a second `stop()` call
returns immediately — it neither blocks on the completion signal again (the
`stopped` event is set and never cleared, so the `await` is skipped) nor raises
an error. -/
theorem stop_twice_no_hang (s0 s1 : LifecycleState)
    (h : FirstStopCompleted s0 s1) :
    HyperlaneContractExporter.stop s1
      = StopOutcome.returned { s1 with stopping := true, sessionOpen := false } := by
  obtain ⟨st, ev, hr, so⟩ := s0
  rcases h with h | ⟨sb, hb, hres⟩
  · cases hr <;> cases ev <;>
      simp [HyperlaneContractExporter.stop] at h <;>
      subst h <;> rfl
  · cases hr <;> cases ev <;>
      simp [HyperlaneContractExporter.stop] at hb <;>
      subst hb <;>
      simp [HyperlaneContractExporter.stopResume] at hres <;>
      subst hres <;> rfl

/-- Claim C8 witness: a concrete exporter whose loop already signalled
completion — the first stop returns at once, and the second stop also returns
without blocking or raising. -/
theorem stop_twice_no_hang_witness :
    FirstStopCompleted ⟨false, true, true, true⟩ ⟨true, true, true, false⟩ ∧
    HyperlaneContractExporter.stop ⟨true, true, true, false⟩
      = StopOutcome.returned ⟨true, true, true, false⟩ :=
  ⟨Or.inl rfl,
    stop_twice_no_hang ⟨false, true, true, true⟩ ⟨true, true, true, false⟩
      (Or.inl rfl)⟩

/-- Claim C10: calling `stop()` on an exporter on which `start()` was never
called first sets the stopping flag, then fails with `AttributeError` on the
missing `_runner_task` handle — the wait and the session close never run, so no
graceful shutdown takes place. -/
theorem stop_before_start_attribute_error (stopping stoppedEvt sessionOpen : Bool) :
    HyperlaneContractExporter.stop ⟨stopping, stoppedEvt, false, sessionOpen⟩
      = StopOutcome.attrError ⟨true, stoppedEvt, false, sessionOpen⟩ := rfl

/-- An exporter operation on the `ExporterState`: an `init()` whose chain-id
fetch returned `chain_id`, or a `tick()` whose contract call had outcome
`callRes`. -/
inductive ExporterOp
  | initOp (chain_id : Nat)
  | tickOp (callRes : Except PyError (Nat × Nat))
deriving Repr

/-- Whether an operation is an `init()`. -/
def isInitOp : ExporterOp → Bool
  | .initOp _ => true
  | .tickOp _ => false

/-- State transition of one exporter operation, with the Metric Store writes it
performs (raised exceptions leave the state as the method left it). -/
def stepOp (s : ExporterState) (op : ExporterOp) : ExporterState × List WriteEv :=
  match op with
  | .initOp c => ((HyperlaneContractExporter.init s (.ok c)).2, [])
  | .tickOp r =>
      ((HyperlaneContractExporter.tick s r).2.1,
       (HyperlaneContractExporter.tick s r).2.2)

/-- Run a sequence of exporter operations, accumulating all Metric Store
writes in order. -/
def execOps (s : ExporterState) : List ExporterOp → ExporterState × List WriteEv
  | [] => (s, [])
  | op :: rest =>
      ((execOps (stepOp s op).1 rest).1,
       (stepOp s op).2 ++ (execOps (stepOp s op).1 rest).2)

/-- Number of `init()` operations in a sequence. -/
def countInit (ops : List ExporterOp) : Nat := ops.countP isInitOp

/-- The exporter state right after `__init__` (lines 129-142): no `network`
attribute, the `contract` cached property not yet computed, no gauge series
published. -/
def exporterFresh : ExporterState := ⟨none, none, []⟩

/-- No operation other than `init` ever changes the resolved network. -/
theorem tick_network_const (s : ExporterState) (r : Except PyError (Nat × Nat)) :
    (stepOp s (.tickOp r)).1.network = s.network := by
  obtain ⟨net, cache, store⟩ := s
  cases net with
  | none => rfl
  | some n =>
      cases cache with
      | some a => cases r <;> rfl
      | none => cases n <;> cases r <;> rfl

/-- An init-free operation sequence leaves the resolved network unchanged. -/
theorem execOps_network_const (ops : List ExporterOp) :
    ∀ s : ExporterState, (ops.all fun op => !(isInitOp op)) = true →
      (execOps s ops).1.network = s.network := by
  induction ops with
  | nil => intro s _; rfl
  | cons op rest ih =>
      intro s h
      simp only [List.all_cons, Bool.and_eq_true] at h
      cases op with
      | initOp c => simp [isInitOp] at h
      | tickOp r =>
          show (execOps (stepOp s (.tickOp r)).1 rest).1.network = s.network
          rw [ih _ h.2, tick_network_const]

/-- Splitting an operation sequence splits its execution. -/
theorem execOps_append (ops1 ops2 : List ExporterOp) :
    ∀ s : ExporterState,
      (execOps s (ops1 ++ ops2)).1 = (execOps (execOps s ops1).1 ops2).1 := by
  induction ops1 with
  | nil => intro s; rfl
  | cons op rest ih => intro s; exact ih (stepOp s op).1

/-- An init-free tick sequence started from a state with no resolved network
does nothing: every tick raises `AttributeError` before caching or writing. -/
theorem execOps_no_network (ops : List ExporterOp) :
    ∀ s : ExporterState, (ops.all fun op => !(isInitOp op)) = true →
      s.network = none → execOps s ops = (s, []) := by
  induction ops with
  | nil => intro s _ _; rfl
  | cons op rest ih =>
      intro s h hn
      simp only [List.all_cons, Bool.and_eq_true] at h
      cases op with
      | initOp c => simp [isInitOp] at h
      | tickOp r =>
          have hstep : stepOp s (.tickOp r) = (s, []) := by
            obtain ⟨net, cache, store⟩ := s
            cases hn
            rfl
          simp [execOps, hstep, ih s h.2 hn]

/-- Once the network is resolved to `n` and the contract cache is either empty
or already holding `n`'s address, an init-free sequence keeps the network at
`n`, keeps that cache property, and labels every Metric Store write with `n`'s
label and `n`'s contract address. -/
theorem execOps_writes_conform (ops : List ExporterOp) :
    ∀ (s : ExporterState) (n : SupportedNetworks),
      (ops.all fun op => !(isInitOp op)) = true →
      s.network = some n →
      (∀ a : String, s.contractCache = some a →
        SupportedNetworks.hyperlane_merkle_tree_hook_contract n = Except.ok a) →
      (execOps s ops).1.network = some n ∧
      (∀ a : String, (execOps s ops).1.contractCache = some a →
        SupportedNetworks.hyperlane_merkle_tree_hook_contract n = Except.ok a) ∧
      (∀ w ∈ (execOps s ops).2, w.label = n.value ∧
        SupportedNetworks.hyperlane_merkle_tree_hook_contract n
          = Except.ok w.contractAddress) := by
  induction ops with
  | nil => intro s n _ hn hc; exact ⟨hn, hc, by intro w hw; cases hw⟩
  | cons op rest ih =>
      intro s n h hn hc
      simp only [List.all_cons, Bool.and_eq_true] at h
      cases op with
      | initOp c => simp [isInitOp] at h
      | tickOp r =>
          obtain ⟨net, cache, store⟩ := s
          cases hn
          cases cache with
          | some a =>
              have ha := hc a rfl
              cases r with
              | error e =>
                  have hstep : stepOp ⟨some n, some a, store⟩ (.tickOp (.error e))
                      = (⟨some n, some a, store⟩, []) := rfl
                  have := ih ⟨some n, some a, store⟩ n h.2 rfl hc
                  simpa [execOps, hstep] using this
              | ok rv =>
                  have hstep : stepOp ⟨some n, some a, store⟩ (.tickOp (.ok rv))
                      = (⟨some n, some a, setGauge store n.value rv.2⟩,
                         [⟨n.value, a, rv.2⟩]) := rfl
                  have hrec := ih ⟨some n, some a, setGauge store n.value rv.2⟩ n
                    h.2 rfl hc
                  refine ⟨by simpa [execOps, hstep] using hrec.1,
                    by simpa [execOps, hstep] using hrec.2.1, ?_⟩
                  intro w hw
                  simp only [execOps, hstep, List.mem_append] at hw
                  rcases hw with hw | hw
                  · simp only [List.mem_singleton] at hw
                    subst hw
                    exact ⟨rfl, ha⟩
                  · exact hrec.2.2 w hw
          | none =>
              obtain ⟨a, ha⟩ := hyperlane_contract_ok n
              have hc2 : ∀ a2 : String,
                  (⟨some n, some a, store⟩ : ExporterState).contractCache = some a2 →
                  SupportedNetworks.hyperlane_merkle_tree_hook_contract n
                    = Except.ok a2 := by
                intro a2 ha2
                simp only [Option.some.injEq] at ha2
                exact ha2 ▸ ha
              cases r with
              | error e =>
                  have hstep : stepOp ⟨some n, none, store⟩ (.tickOp (.error e))
                      = (⟨some n, some a, store⟩, []) := by
                    simp [stepOp, HyperlaneContractExporter.tick, ha,
                      HyperlaneContractExporter.tickWithContract]
                  have := ih ⟨some n, some a, store⟩ n h.2 rfl hc2
                  simpa [execOps, hstep] using this
              | ok rv =>
                  have hstep : stepOp ⟨some n, none, store⟩ (.tickOp (.ok rv))
                      = (⟨some n, some a, setGauge store n.value rv.2⟩,
                         [⟨n.value, a, rv.2⟩]) := by
                    simp [stepOp, HyperlaneContractExporter.tick, ha,
                      HyperlaneContractExporter.tickWithContract]
                  have hrec := ih ⟨some n, some a, setGauge store n.value rv.2⟩ n
                    h.2 rfl hc2
                  refine ⟨by simpa [execOps, hstep] using hrec.1,
                    by simpa [execOps, hstep] using hrec.2.1, ?_⟩
                  intro w hw
                  simp only [execOps, hstep, List.mem_append] at hw
                  rcases hw with hw | hw
                  · simp only [List.mem_singleton] at hw
                    subst hw
                    exact ⟨rfl, ha⟩
                  · exact hrec.2.2 w hw

/-- A sequence with no counted `init` is init-free. -/
theorem countInit_zero_all (ops : List ExporterOp) (h : countInit ops = 0) :
    (ops.all fun op => !(isInitOp op)) = true := by
  rw [List.all_eq_true]
  intro op hop
  have hp := List.countP_eq_zero.mp h op hop
  cases hio : isInitOp op
  · simp [hio]
  · exact absurd hio hp

/-- Writes of an operation sequence started from a fresh exporter that runs
`init()` at most once all carry the finally-resolved network's label and
contract address. -/
theorem execOps_fresh_writes (ops : List ExporterOp) :
    ∀ s : ExporterState, countInit ops ≤ 1 → s.network = none →
      s.contractCache = none →
      ∀ w ∈ (execOps s ops).2, ∃ n : SupportedNetworks,
        (execOps s ops).1.network = some n ∧ w.label = n.value ∧
        SupportedNetworks.hyperlane_merkle_tree_hook_contract n
          = Except.ok w.contractAddress := by
  induction ops with
  | nil => intro s _ _ _ w hw; cases hw
  | cons op rest ih =>
      intro s hcount hn hcache w hw
      cases op with
      | tickOp r =>
          have hstep : stepOp s (.tickOp r) = (s, []) := by
            obtain ⟨net, cache, store⟩ := s
            cases hn
            rfl
          have hcount2 : countInit rest ≤ 1 := by
            simp only [countInit, List.countP_cons] at hcount ⊢
            omega
          simp only [execOps, hstep, List.nil_append] at hw ⊢
          exact ih s hcount2 hn hcache w hw
      | initOp c =>
          have hcount2 : countInit rest = 0 := by
            simp only [countInit, List.countP_cons, isInitOp, eq_self_iff_true,
              if_true] at hcount
            simp only [countInit]
            omega
          have hall2 := countInit_zero_all rest hcount2
          by_cases hc1 : c = 1
          · subst hc1
            have hstep : stepOp s (.initOp 1)
                = ({ s with network := some SupportedNetworks.MAINNET }, []) := rfl
            have hc : ∀ a : String,
                ({ s with network := some SupportedNetworks.MAINNET }
                  : ExporterState).contractCache = some a →
                SupportedNetworks.hyperlane_merkle_tree_hook_contract
                  SupportedNetworks.MAINNET = Except.ok a := by
              intro a ha
              rw [show ({ s with network := some SupportedNetworks.MAINNET }
                : ExporterState).contractCache = s.contractCache from rfl,
                hcache] at ha
              cases ha
            have hconf := execOps_writes_conform rest
              { s with network := some SupportedNetworks.MAINNET }
              SupportedNetworks.MAINNET hall2 rfl hc
            simp only [execOps, hstep, List.nil_append] at hw ⊢
            exact ⟨SupportedNetworks.MAINNET, hconf.1, hconf.2.2 w hw⟩
          · by_cases hc17 : c = 17000
            · subst hc17
              have hstep : stepOp s (.initOp 17000)
                  = ({ s with network := some SupportedNetworks.HOLESKY }, []) := rfl
              have hc : ∀ a : String,
                  ({ s with network := some SupportedNetworks.HOLESKY }
                    : ExporterState).contractCache = some a →
                  SupportedNetworks.hyperlane_merkle_tree_hook_contract
                    SupportedNetworks.HOLESKY = Except.ok a := by
                intro a ha
                rw [show ({ s with network := some SupportedNetworks.HOLESKY }
                  : ExporterState).contractCache = s.contractCache from rfl,
                  hcache] at ha
                cases ha
              have hconf := execOps_writes_conform rest
                { s with network := some SupportedNetworks.HOLESKY }
                SupportedNetworks.HOLESKY hall2 rfl hc
              simp only [execOps, hstep, List.nil_append] at hw ⊢
              exact ⟨SupportedNetworks.HOLESKY, hconf.1, hconf.2.2 w hw⟩
            · have hstep : stepOp s (.initOp c) = (s, []) := by
                simp [stepOp, HyperlaneContractExporter.init, hc1, hc17]
              have hrest := execOps_no_network rest s hall2 hn
              simp only [execOps, hstep, hrest, List.nil_append] at hw
              cases hw

/-- Claim C7: the resolved network is assigned only by `init()`; in any
operation sequence of the exporter lifecycle (at most one `init()`, which is
what `start_exporter_app` performs), once the network resolves it never changes;
and every Metric Store write a tick performs carries exactly the resolved
network's label and reads from that network's contract address — never an
unresolved or mismatched label. -/
theorem network_label_invariant :
    (∀ (s : ExporterState) (r : Except PyError (Nat × Nat)),
      (stepOp s (.tickOp r)).1.network = s.network) ∧
    (∀ (ops1 ops2 : List ExporterOp) (n : SupportedNetworks),
      countInit (ops1 ++ ops2) ≤ 1 →
      (execOps exporterFresh ops1).1.network = some n →
      (execOps exporterFresh (ops1 ++ ops2)).1.network = some n) ∧
    (∀ ops : List ExporterOp, countInit ops ≤ 1 →
      ∀ w ∈ (execOps exporterFresh ops).2, ∃ n : SupportedNetworks,
        (execOps exporterFresh ops).1.network = some n ∧ w.label = n.value ∧
        SupportedNetworks.hyperlane_merkle_tree_hook_contract n
          = Except.ok w.contractAddress) := by
  refine ⟨tick_network_const, ?_, ?_⟩
  · intro ops1 ops2 n hcount hres
    have hadd : countInit (ops1 ++ ops2) = countInit ops1 + countInit ops2 := by
      simp [countInit, List.countP_append]
    by_cases h0 : countInit ops1 = 0
    · have hall := countInit_zero_all ops1 h0
      rw [execOps_network_const ops1 exporterFresh hall] at hres
      cases hres
    · have h2 : countInit ops2 = 0 := by omega
      have hall2 := countInit_zero_all ops2 h2
      rw [execOps_append, execOps_network_const ops2 _ hall2]
      exact hres
  · intro ops hcount w hw
    exact execOps_fresh_writes ops exporterFresh hcount rfl rfl w hw

/-- Claim C7 witness: the actual lifecycle sequence `init()` on mainnet followed
by one successful tick — the single write carries the mainnet label and the
mainnet contract address of the resolved network. -/
theorem network_label_invariant_witness :
    countInit [ExporterOp.initOp 1, ExporterOp.tickOp (.ok (0, 5))] ≤ 1 ∧
    (⟨"mainnet", "0x48e6c30B97748d1e2e03bf3e9FbE3890ca5f8CCA", 5⟩ : WriteEv) ∈
      (execOps exporterFresh
        [ExporterOp.initOp 1, ExporterOp.tickOp (.ok (0, 5))]).2 ∧
    (∃ n : SupportedNetworks,
      (execOps exporterFresh
          [ExporterOp.initOp 1, ExporterOp.tickOp (.ok (0, 5))]).1.network
        = some n ∧
      (⟨"mainnet", "0x48e6c30B97748d1e2e03bf3e9FbE3890ca5f8CCA", 5⟩
        : WriteEv).label = n.value ∧
      SupportedNetworks.hyperlane_merkle_tree_hook_contract n
        = Except.ok (⟨"mainnet", "0x48e6c30B97748d1e2e03bf3e9FbE3890ca5f8CCA", 5⟩
            : WriteEv).contractAddress) ∧
    (execOps exporterFresh
        ([ExporterOp.initOp 1] ++ [ExporterOp.tickOp (.ok (0, 5))])).1.network
      = some SupportedNetworks.MAINNET :=
  ⟨by decide,
   by decide,
   network_label_invariant.2.2 [ExporterOp.initOp 1, ExporterOp.tickOp (.ok (0, 5))]
     (by decide) ⟨"mainnet", "0x48e6c30B97748d1e2e03bf3e9FbE3890ca5f8CCA", 5⟩
     (by decide),
   network_label_invariant.2.1 [ExporterOp.initOp 1] [ExporterOp.tickOp (.ok (0, 5))]
     SupportedNetworks.MAINNET (by decide) (by decide)⟩

/-- A tick task spawned by the loop (line 188): suspended in its awaited chain
call (whose eventual outcome is fixed at `res`), ready to resume after a
successful call (about to log and write the gauge), finished, or failed with
the call's exception. -/
inductive TickTask
  | pendingCall (res : Except PyError (Nat × Nat))
  | readyResume (value : Nat)
  | finished
  | failed
deriving Repr

/-- The loop task of `run()`: alive, cancel-requested (a `stop()` called
`self._runner_task.cancel()`, the `CancelledError` not yet delivered), or done. -/
inductive RunnerPhase
  | alive
  | cancelled
  | done
deriving DecidableEq, Repr

/-- Where the `stop()` coroutine of lines 156-163 stands: not yet called,
called but its body not yet run, suspended in `await self.stopped.wait()`,
about to run `await self.session.close()`, or returned. -/
inductive StopPhase
  | notCalled
  | running
  | waitingEvt
  | closingSession
  | returned
deriving DecidableEq, Repr

/-- Events observable while the exporter tasks interleave. -/
inductive SysEvent
  | tickSpawned
  | metricSet (label : String) (value : Nat)
  | stoppedEvtSet
  | runnerExited
  | sessionClosed
  | stopReturned
deriving DecidableEq, Repr

/-- Joint state of the event loop's tasks after `init()` and `start()`:
the resolved network, the gauge store, `self.stopping` / `self.stopped`,
the loop task, every tick task spawned so far, the `stop()` coroutine, and
the shared session. -/
structure Sys where
  network : SupportedNetworks
  store : MetricStore
  stopping : Bool
  stoppedEvt : Bool
  runner : RunnerPhase
  ticks : List TickTask
  stopPhase : StopPhase
  sessionOpen : Bool
deriving Repr

/-- Scheduler actions: run one iteration of the loop task (`res` is the chain
outcome eventually seen by the tick it spawns), resolve tick `i`'s awaited
call, resume tick `i` on the event loop, invoke `stop()`, or advance the
`stop()` coroutine by one suspension-delimited chunk. -/
inductive SysAction
  | runnerStep (res : Except PyError (Nat × Nat))
  | tickCall (i : Nat)
  | tickRun (i : Nat)
  | stopCall
  | stopStep
deriving Repr

/-- Small-step transition of the task system, with the events of the step.
It follows the code: a loop iteration spawns a tick fire-and-forget and sleeps
(lines 187-189) — `stop()` never cancels or awaits these tick tasks; a
cancelled loop task unwinds at its `await` and its done callback sets the
`stopped` event (lines 148-154); a normally exiting loop sets the event itself
(line 190); a resumed tick writes the gauge and finishes (line 183); `stop()`
sets `stopping`, cancels only the loop task, waits for the event if unset, and
closes the session before returning (lines 156-163). -/
def stepSys (s : Sys) (a : SysAction) : Sys × List SysEvent :=
  match a with
  | .runnerStep res =>
      match s.runner with
      | .alive =>
          if s.stopping then
            ({ s with runner := .done, stoppedEvt := true },
             [.stoppedEvtSet, .runnerExited])
          else
            ({ s with ticks := s.ticks ++ [.pendingCall res] }, [.tickSpawned])
      | .cancelled =>
          ({ s with runner := .done, stoppedEvt := true },
           [.runnerExited, .stoppedEvtSet])
      | .done => (s, [])
  | .tickCall i =>
      match s.ticks[i]? with
      | some (.pendingCall (.ok rv)) =>
          ({ s with ticks := s.ticks.set i (.readyResume rv.2) }, [])
      | some (.pendingCall (.error _)) =>
          ({ s with ticks := s.ticks.set i .failed }, [])
      | _ => (s, [])
  | .tickRun i =>
      match s.ticks[i]? with
      | some (.readyResume v) =>
          ({ s with ticks := s.ticks.set i .finished,
                    store := setGauge s.store s.network.value v },
           [.metricSet s.network.value v])
      | _ => (s, [])
  | .stopCall =>
      match s.stopPhase with
      | .notCalled => ({ s with stopPhase := .running }, [])
      | _ => (s, [])
  | .stopStep =>
      match s.stopPhase with
      | .running =>
          if s.stoppedEvt then
            ({ s with stopping := true,
                      runner := if s.runner = .alive then .cancelled else s.runner,
                      stopPhase := .closingSession }, [])
          else
            ({ s with stopping := true,
                      runner := if s.runner = .alive then .cancelled else s.runner,
                      stopPhase := .waitingEvt }, [])
      | .waitingEvt =>
          if s.stoppedEvt then ({ s with stopPhase := .closingSession }, [])
          else (s, [])
      | .closingSession =>
          ({ s with stopPhase := .returned, sessionOpen := false },
           [.sessionClosed, .stopReturned])
      | _ => (s, [])

/-- Run a schedule of actions, accumulating the event log. -/
def execSys (s : Sys) : List SysAction → Sys × List SysEvent
  | [] => (s, [])
  | a :: rest =>
      ((execSys (stepSys s a).1 rest).1,
       (stepSys s a).2 ++ (execSys (stepSys s a).1 rest).2)

/-- State right after `init()` (mainnet) and `start()`: loop task alive, no tick
spawned yet, `stop()` not called, session open. -/
def sysStart : Sys :=
  ⟨SupportedNetworks.MAINNET, [], false, false, .alive, [], .notCalled, true⟩

/-- Holds when no Metric Store set event follows a `stopReturned` event. -/
def noSetAfterReturn : List SysEvent → Bool
  | [] => true
  | e :: rest =>
      ((match e with
        | SysEvent.stopReturned =>
            rest.all fun x => match x with
              | SysEvent.metricSet _ _ => false
              | _ => true
        | _ => true) && noSetAfterReturn rest)

/-- Holds when no tick-spawn event follows a `stopReturned` event. -/
def noSpawnAfterReturn : List SysEvent → Bool
  | [] => true
  | e :: rest =>
      ((match e with
        | SysEvent.stopReturned =>
            rest.all fun x => x ≠ SysEvent.tickSpawned
        | _ => true) && noSpawnAfterReturn rest)

/-- An interleaving allowed by the code in which `start()` ran, `stop()` was
called and returned, and a tick spawned before the cancellation still writes
the gauge afterwards: the loop spawns a tick, `stop()` cancels the loop and —
after the loop's done callback sets the event — closes the session and
returns, and only then does the orphan tick's call resolve and its resumption
write the gauge. -/
def schedOrphanTick : List SysAction :=
  [.runnerStep (.ok (0, 42)), .stopCall, .stopStep, .runnerStep (.ok (0, 0)),
   .stopStep, .stopStep, .tickCall 0, .tickRun 0]

/-- Claim C4 counterexample: on the schedule above the event log contains a
Metric Store set event after `stop()` returned — the claim that no set call
occurs after `stop()` returns is false of the code, because `stop()` neither
cancels nor awaits previously spawned tick tasks. -/
theorem stop_set_after_return_cex :
    (execSys sysStart schedOrphanTick).2 =
      [SysEvent.tickSpawned, SysEvent.runnerExited, SysEvent.stoppedEvtSet,
       SysEvent.sessionClosed, SysEvent.stopReturned,
       SysEvent.metricSet "mainnet" 42] ∧
    noSetAfterReturn (execSys sysStart schedOrphanTick).2 = false := by
  refine ⟨?_, ?_⟩ <;> rfl

/-- The `stopping` flag is never reset by any step. -/
theorem stepSys_stopping_mono (s : Sys) (a : SysAction) (h : s.stopping = true) :
    (stepSys s a).1.stopping = true := by
  cases a <;> simp only [stepSys] <;> (repeat' split) <;> simp_all

/-- Once `stopping` is set, no step emits a tick-spawn event (the loop test
`while not self.stopping` fails, so the spawning branch is unreachable). -/
theorem stepSys_no_spawn_of_stopping (s : Sys) (a : SysAction)
    (h : s.stopping = true) :
    ((stepSys s a).2.all fun x => x ≠ SysEvent.tickSpawned) = true := by
  cases a <;> simp only [stepSys] <;> (repeat' split) <;> simp_all

/-- Once `stopping` is set, a whole schedule emits no tick-spawn event. -/
theorem execSys_no_spawn (sched : List SysAction) :
    ∀ s : Sys, s.stopping = true →
      ((execSys s sched).2.all fun x => x ≠ SysEvent.tickSpawned) = true := by
  induction sched with
  | nil => intro s _; rfl
  | cons a rest ih =>
      intro s h
      simp only [execSys, List.all_append, Bool.and_eq_true]
      exact ⟨stepSys_no_spawn_of_stopping s a h, ih _ (stepSys_stopping_mono s a h)⟩

/-- The `stop()` coroutine only reaches its wait, close, and return points with
the `stopping` flag already set (its first chunk sets the flag). -/
def StopInv (s : Sys) : Prop :=
  (s.stopPhase = StopPhase.waitingEvt ∨ s.stopPhase = StopPhase.closingSession ∨
    s.stopPhase = StopPhase.returned) → s.stopping = true

/-- Every step preserves `StopInv`. -/
theorem stepSys_inv (s : Sys) (a : SysAction) (h : StopInv s) :
    StopInv (stepSys s a).1 := by
  cases a with
  | runnerStep res =>
      cases hr : s.runner <;> simp only [stepSys, hr]
      · split
        · exact h
        · exact h
      · exact h
      · exact h
  | tickCall i =>
      simp only [stepSys]
      split
      · exact h
      · exact h
      · exact h
  | tickRun i =>
      simp only [stepSys]
      split
      · exact h
      · exact h
  | stopCall =>
      simp only [stepSys]
      split
      · intro hph
        simp at hph
      · exact h
  | stopStep =>
      cases hsp : s.stopPhase <;> simp only [stepSys, hsp]
      · exact h
      · split
        · intro _; rfl
        · intro _; rfl
      · split
        · intro _; exact h (Or.inl hsp)
        · exact h
      · intro _; exact h (Or.inr (Or.inl hsp))
      · exact h

/-- If a step emits `stopReturned`, the post-state has `stopping` set (only the
session-closing chunk of `stop()` emits it, and `StopInv` puts the flag there). -/
theorem stepSys_returned_stopping (s : Sys) (a : SysAction) (h : StopInv s)
    (he : SysEvent.stopReturned ∈ (stepSys s a).2) :
    (stepSys s a).1.stopping = true := by
  cases a with
  | runnerStep res =>
      cases hr : s.runner <;> simp only [stepSys, hr] at he
      · by_cases hst : s.stopping = true <;> simp [hst] at he
      · simp at he
      · simp at he
  | tickCall i =>
      simp only [stepSys] at he
      split at he <;> simp at he
  | tickRun i =>
      simp only [stepSys] at he
      split at he <;> simp at he
  | stopCall =>
      simp only [stepSys] at he
      split at he <;> simp at he
  | stopStep =>
      cases hsp : s.stopPhase <;> simp only [stepSys, hsp] at he ⊢
      · simp at he
      · split at he <;> simp at he
      · split at he <;> simp at he
      · exact h (Or.inr (Or.inl hsp))
      · simp at he

/-- The events of any single step contain no tick-spawn after a `stopReturned`
(the only step that emits `stopReturned` emits it last). -/
theorem stepSys_good (s : Sys) (a : SysAction) :
    noSpawnAfterReturn (stepSys s a).2 = true := by
  cases a with
  | runnerStep res =>
      cases hr : s.runner <;> simp only [stepSys, hr]
      · by_cases hst : s.stopping = true
        · rw [if_pos hst]
          rfl
        · rw [if_neg hst]
          rfl
      · rfl
      · rfl
  | tickCall i =>
      simp only [stepSys]
      split <;> rfl
  | tickRun i =>
      simp only [stepSys]
      split <;> rfl
  | stopCall =>
      simp only [stepSys]
      split <;> rfl
  | stopStep =>
      simp only [stepSys]
      split <;> first | rfl | (split <;> rfl)

/-- Unfolding `noSpawnAfterReturn` at a `stopReturned` head. -/
theorem noSpawnAfterReturn_cons_ret (rest : List SysEvent) :
    noSpawnAfterReturn (SysEvent.stopReturned :: rest)
      = ((rest.all fun x => x ≠ SysEvent.tickSpawned) &&
          noSpawnAfterReturn rest) := rfl

/-- Unfolding `noSpawnAfterReturn` at any other head. -/
theorem noSpawnAfterReturn_cons_other (e : SysEvent) (rest : List SysEvent)
    (h : e ≠ SysEvent.stopReturned) :
    noSpawnAfterReturn (e :: rest) = noSpawnAfterReturn rest := by
  cases e with
  | stopReturned => exact absurd rfl h
  | tickSpawned => simp [noSpawnAfterReturn]
  | metricSet l v => simp [noSpawnAfterReturn]
  | stoppedEvtSet => simp [noSpawnAfterReturn]
  | runnerExited => simp [noSpawnAfterReturn]
  | sessionClosed => simp [noSpawnAfterReturn]

/-- `noSpawnAfterReturn` composes over concatenation when the right part is
spawn-free whenever the left part contains a `stopReturned`. -/
theorem noSpawnAfterReturn_append (l1 l2 : List SysEvent)
    (h1 : noSpawnAfterReturn l1 = true) (h2 : noSpawnAfterReturn l2 = true)
    (h3 : SysEvent.stopReturned ∈ l1 →
      (l2.all fun x => x ≠ SysEvent.tickSpawned) = true) :
    noSpawnAfterReturn (l1 ++ l2) = true := by
  induction l1 with
  | nil => simpa using h2
  | cons e tl ih =>
      have h3tl : SysEvent.stopReturned ∈ tl →
          (l2.all fun x => x ≠ SysEvent.tickSpawned) = true :=
        fun hm => h3 (List.mem_cons_of_mem e hm)
      by_cases he : e = SysEvent.stopReturned
      · subst he
        rw [List.cons_append, noSpawnAfterReturn_cons_ret, Bool.and_eq_true,
          List.all_append, Bool.and_eq_true]
        rw [noSpawnAfterReturn_cons_ret, Bool.and_eq_true] at h1
        exact ⟨⟨h1.1, h3 (List.mem_cons_self _ _)⟩, ih h1.2 h3tl⟩
      · rw [List.cons_append, noSpawnAfterReturn_cons_other e _ he]
        rw [noSpawnAfterReturn_cons_other e tl he] at h1
        exact ih h1 h3tl

/-- From any state satisfying `StopInv`, every schedule yields a log with no
tick-spawn after a `stopReturned`. -/
theorem execSys_good (sched : List SysAction) :
    ∀ s : Sys, StopInv s → noSpawnAfterReturn (execSys s sched).2 = true := by
  induction sched with
  | nil => intro s _; rfl
  | cons a rest ih =>
      intro s hInv
      simp only [execSys]
      refine noSpawnAfterReturn_append _ _ (stepSys_good s a)
        (ih _ (stepSys_inv s a hInv)) ?_
      intro hm
      exact execSys_no_spawn rest (stepSys s a).1
        (stepSys_returned_stopping s a hInv hm)

/-- Claim C4 (amended): after `stop()` returns, the cancelled loop task spawns
no further tick tasks, so no new tick (hence no Metric Store write from a tick
started after the shutdown) can begin — in every interleaving, no tick-spawn
event follows the `stopReturned` event.  (`stop()` does not, however, cancel or
await tick tasks spawned before the cancellation: per the counterexample above,
such a tick may still perform its single write after `stop()` returns.) -/
theorem stop_no_spawn_after_return (sched : List SysAction) :
    noSpawnAfterReturn (execSys sysStart sched).2 = true :=
  execSys_good sched sysStart
    (fun hph => by rcases hph with h | h | h <;> exact absurd h (by decide))

/-- Claim C9 witness: concrete evaluation at MAINNET — the fixed address comes
back and the defensive error branch is not taken. -/
theorem contract_address_total_witness :
    SupportedNetworks.hyperlane_merkle_tree_hook_contract SupportedNetworks.MAINNET
      = Except.ok "0x48e6c30B97748d1e2e03bf3e9FbE3890ca5f8CCA" ∧
    ¬ SupportedNetworks.hyperlane_merkle_tree_hook_contract SupportedNetworks.MAINNET
      = Except.error PyError.runtimeNoContractAddress :=
  ⟨contract_address_total.1,
   contract_address_total.2.2.2 SupportedNetworks.MAINNET
     PyError.runtimeNoContractAddress⟩
